import Mathlib

/-!
A shallow embedding of `src/http_server.py` (class `HttpServer`): a minimal
HTTP/1.1 static-file server.  Python byte strings are modelled as `List Nat`
(one element per byte); Python `str` values as Lean `String`; the file system
as an abstract map `String → Option FsNode` keyed by the literal path string
the code passes to the `os.path` functions.  Fallible Python code
(exceptions) is modelled with `Option` / explicit result constructors.
-/

namespace HttpServer

/-- UTF-8 encoding of a single character (`str.encode("utf8")`, per char). -/
def utf8Bytes (c : Char) : List Nat :=
  let n := c.toNat
  if n < 128 then [n]
  else if n < 2048 then [192 + n / 64, 128 + n % 64]
  else if n < 65536 then [224 + n / 4096, 128 + (n / 64) % 64, 128 + n % 64]
  else [240 + n / 262144, 128 + (n / 4096) % 64, 128 + (n / 64) % 64, 128 + n % 64]

/-- Bytes of a Python string, i.e. `s.encode("utf8")`; for the ASCII literals
appearing in the source this is just the list of code points.  Byte-string
literals `b"..."` in the source are likewise modelled as `strBytes "..."`. -/
def strBytes (s : String) : List Nat :=
  s.toList.flatMap utf8Bytes

/-- Embedding of `HttpServer.make_response(code, reason, body, mimetype)`
(src/http_server.py lines 10-40):

    return b"\r\n".join([
        b"HTTP/1.1 " + code + b" " + reason,
        b"Content-Type: " + mimetype,
        b"",
        body
    ])

Python's `sep.join(xs)` is `List.intercalate sep xs`.  (The Python defaults
`body=b""`, `mimetype=b"text/plain"` are never used: every call site passes
all four arguments.) -/
def make_response (code reason body mimetype : List Nat) : List Nat :=
  List.intercalate (strBytes "\r\n")
    [ strBytes "HTTP/1.1 " ++ code ++ strBytes " " ++ reason,
      strBytes "Content-Type: " ++ mimetype,
      [],
      body ]

/-- Whitespace for Python's no-argument `str.split()` (ASCII part:
space, tab, newline, carriage return, vertical tab, form feed). -/
def pyIsSpace (c : Char) : Bool :=
  c == ' ' || c == '\t' || c == '\n' || c == '\r' || c == '\x0b' || c == '\x0c'

/-- Helper for `pyTokens`: `acc` is the (reversed) token currently being
scanned, if any. -/
def pyTokensAux : Option (List Char) → List Char → List (List Char)
  | Option.none, [] => []
  | some t, [] => [t.reverse]
  | Option.none, c :: cs =>
      if pyIsSpace c then pyTokensAux Option.none cs
      else pyTokensAux (some [c]) cs
  | some t, c :: cs =>
      if pyIsSpace c then t.reverse :: pyTokensAux Option.none cs
      else pyTokensAux (some (c :: t)) cs

/-- Python's `s.split()` with no arguments: maximal runs of non-whitespace
characters, empty tokens dropped. -/
def pyTokens (l : List Char) : List (List Char) :=
  pyTokensAux Option.none l

/-- Embedding of `HttpServer.get_path(request)` (src/http_server.py lines
42-59): `return request.split()[1]`.  The out-of-range index (fewer than two
whitespace-separated tokens in the whole request text) raises `IndexError`,
modelled as `Option.none`. -/
def get_path (request : String) : Option String :=
  ((pyTokens request.toList).map fun t => String.mk t)[1]?

/-- Embedding of `path_.endswith('/')`: for a one-character suffix this is
exactly "last character is `/`". -/
def endswith_slash (s : String) : Bool :=
  s.toList.getLast? == some '/'

/-- Characters after the last `/` of the path (the basename part used by
`posixpath.splitext`). -/
def pyBasename (l : List Char) : List Char :=
  (l.reverse.takeWhile (fun c => c != '/')).reverse

/-- Extension of a basename per `posixpath.splitext`: the suffix starting at
the last dot, except that a dot only counts when some earlier character of
the basename is not a dot (leading dots never start an extension). -/
def splitext_ext (b : List Char) : List Char :=
  if b.contains '.' then
    let extRev := b.reverse.takeWhile (fun c => c != '.')
    let stem := b.take (b.length - extRev.length - 1)
    if stem.any (fun c => c != '.') then '.' :: extRev.reverse else []
  else []

/-- Modelled from the spec: the "standard extension-to-type lookup" table of
Python's `mimetypes` module (library code, not part of this repository),
restricted to common extensions. -/
def types_map : List (String × String) :=
  [ (".html", "text/html"), (".htm", "text/html"), (".txt", "text/plain"),
    (".png", "image/png"), (".jpg", "image/jpeg"), (".jpeg", "image/jpeg"),
    (".gif", "image/gif"), (".css", "text/css"), (".js", "text/javascript"),
    (".json", "application/json"), (".pdf", "application/pdf"),
    (".xml", "text/xml"), (".svg", "image/svg+xml"), (".py", "text/x-python") ]

/-- Modelled from the spec: `mimetypes.guess_type(path)[0]` (Python standard
library, not part of this repository) — extension-based lookup: take the
`posixpath.splitext` extension of the path, lowercase it, and look it up in
the standard table; `Option.none` models Python `None` for an unrecognized
or absent extension. -/
def guess_type (path_ : String) : Option String :=
  let ext := String.mk ((splitext_ext (pyBasename path_.toList)).map Char.toLower)
  (types_map.find? (fun p => p.1 == ext)).map (fun p => p.2)

/-- Python's `'{}'.format(x)` for `x` either a string or `None`: `None`
renders as the text `"None"`. -/
def pyFormatOpt (o : Option String) : String :=
  match o with
  | Option.none => "None"
  | some s => s

/-- Embedding of `HttpServer.get_mimetype(path_)` (src/http_server.py lines
61-91):

    if path_.endswith('/'):
        return b"text/html"
    else:
        return '{}'.format(mimetypes.guess_type(path_)[0]).encode("utf8")
-/
def get_mimetype (path_ : String) : List Nat :=
  if endswith_slash path_ then strBytes "text/html"
  else strBytes (pyFormatOpt (guess_type path_))

/-- What the file system holds at a given literal path string: a regular
file with contents, a directory with a list of entry names (in the order
`os.listdir` yields them), or an existing node that is neither a regular
file nor a directory (FIFO, socket, ...). -/
inductive FsNode where
  | file (contents : List Nat)
  | dir (entries : List String)
  | other
deriving DecidableEq

/-- Abstract file system: `Option.none` at a path means `os.path.exists` is
false there. -/
def FS : Type := String → Option FsNode

/-- Result of `get_content`: a returned byte string, the Python `None` that
falls out when the existing node is neither directory nor regular file, or a
raised `FileNotFoundError`. -/
inductive PyResult where
  | bytes (b : List Nat)
  | pyNone
  | fnf
deriving DecidableEq

/-- The document-root resolution `filepath = "webroot/" + path_`
(src/http_server.py line 127): plain string concatenation, no
canonicalization, no containment check. -/
def resolve (path_ : String) : String :=
  "webroot/" ++ path_

/-- One directory-listing line, `"<a href={}>{}<br></a>\n".format(str(item),
str(item))` (src/http_server.py line 131). -/
def fmtEntry (item : String) : String :=
  "<a href=" ++ item ++ ">" ++ item ++ "<br></a>\n"

/-- Embedding of `HttpServer.get_content(path_)` (src/http_server.py lines
93-139): resolve `"webroot/" + path_`; if it exists and is a directory,
return the encoded concatenation of the formatted listing lines
(`"".join(dirlst).encode("utf8")`); if it exists and is a regular file,
return its bytes; if it exists but is neither, the Python function falls
through and returns `None`; if it does not exist, raise
`FileNotFoundError`. -/
def get_content (fs : FS) (path_ : String) : PyResult :=
  let filepath := resolve path_
  match fs filepath with
  | some (FsNode.dir entries) =>
      PyResult.bytes (strBytes (String.join (entries.map fmtEntry)))
  | some (FsNode.file contents) => PyResult.bytes contents
  | some FsNode.other => PyResult.pyNone
  | Option.none => PyResult.fnf

/-- Embedding of the per-request part of `HttpServer.serve`
(src/http_server.py lines 173-191): extract the path, resolve content, and
build the response.  `Option.none` models the connection being closed with
no response sent: either `get_path` raised `IndexError`, or `get_content`
returned `None` and `make_response` then raised `TypeError` on
`b"\r\n".join` — both are caught only by the connection-scope bare
`except`, which logs and closes. -/
def handle (fs : FS) (request : String) : Option (List Nat) :=
  match get_path request with
  | Option.none => Option.none
  | some path_ =>
    match get_content fs path_ with
    | PyResult.bytes body =>
        some (make_response (strBytes "200") (strBytes "OK") body (get_mimetype path_))
    | PyResult.fnf =>
        some (make_response (strBytes "404") (strBytes "NOT FOUND")
          (strBytes "Couldn't find the file you requested.") (strBytes "text/plain"))
    | PyResult.pyNone => Option.none

/-- Drop everything from the first CR-LF pair on, returning the part before
it and the part after it; scans left to right for a 13 immediately followed
by a 10. -/
def splitCRLF : List Nat → Option (List Nat × List Nat)
  | [] => Option.none
  | c :: rest =>
    if c = 13 then
      match rest with
      | 10 :: r => some ([], r)
      | _ => (splitCRLF rest).map fun p => (c :: p.1, p.2)
    else (splitCRLF rest).map fun p => (c :: p.1, p.2)

/-- Split a byte list at the first occurrence of `sep`. -/
def splitByte (sep : Nat) : List Nat → Option (List Nat × List Nat)
  | [] => Option.none
  | c :: rest =>
    if c = sep then some ([], rest)
    else (splitByte sep rest).map fun p => (c :: p.1, p.2)

/-- Remove an expected leading byte sequence, or fail. -/
def stripLead : List Nat → List Nat → Option (List Nat)
  | [], l => some l
  | _ :: _, [] => Option.none
  | p :: ps, c :: cs => if c = p then stripLead ps cs else Option.none

/-- Re-parse of a response byte sequence, as described by the round-trip
property: first CR-LF line is the status line (fixed `HTTP/1.1 ` version
token, then the code up to the next space, then the reason), second CR-LF
line is the single `Content-Type: ` header, then the blank line, and the
body is everything after it. -/
def parse_response (resp : List Nat) :
    Option (List Nat × List Nat × List Nat × List Nat) :=
  match splitCRLF resp with
  | some (statusLine, rest1) =>
    match splitCRLF rest1 with
    | some (headerLine, rest2) =>
      match splitCRLF rest2 with
      | some ([], body) =>
        match stripLead (strBytes "HTTP/1.1 ") statusLine with
        | some codeReason =>
          match splitByte 32 codeReason with
          | some (code, reason) =>
            match stripLead (strBytes "Content-Type: ") headerLine with
            | some mimetype => some (code, reason, mimetype, body)
            | Option.none => Option.none
          | Option.none => Option.none
        | Option.none => Option.none
      | _ => Option.none
    | Option.none => Option.none
  | Option.none => Option.none

/-- Line-break characters, for talking about "the first line" of a request
(HTTP lines end in CR-LF; Python's universal newlines also break at a lone
CR or LF). -/
def isLineBreak (c : Char) : Bool :=
  c == '\n' || c == '\r'

/-- Characters of the first line of a request text. -/
def firstLineOf (s : String) : List Char :=
  s.toList.takeWhile (fun c => !(isLineBreak c))

/-- Split a character list at every `/` (components of a POSIX path,
empty components included). -/
def splitOnSlash : List Char → List (List Char)
  | [] => [[]]
  | c :: cs =>
    match splitOnSlash cs with
    | [] => [[]]
    | t :: ts => if c = '/' then [] :: t :: ts else (c :: t) :: ts

/-- One step of POSIX-style path normalization over a component list:
empty and `.` components vanish, `..` pops the previous real component. -/
def normStep (acc : List String) (c : String) : List String :=
  if c = "" ∨ c = "." then acc
  else if c = ".." then
    match acc.getLast? with
    | some last => if last = ".." then acc ++ [c] else acc.dropLast
    | Option.none => acc ++ [c]
  else acc ++ [c]

/-- Normalized component list of a path string.  The server itself performs
no such normalization; this is only used to state where a traversal path
actually points on the file system. -/
def normComponents (s : String) : List String :=
  ((splitOnSlash s.toList).map (fun t => String.mk t)).foldl normStep []

/-- A normalized path escapes the document root when its first component is
not `webroot`. -/
def escapesRoot (p : String) : Bool :=
  (normComponents p).head? != some "webroot"

/-- Empty file system: nothing exists. -/
def fsEmpty : FS := fun _ => Option.none

/-- File system holding a single regular file at `webroot//hello.txt`
(the key the server builds for the request path `/hello.txt`). -/
def fsHello : FS := fun s =>
  if s = "webroot//hello.txt" then some (FsNode.file (strBytes "hi")) else Option.none

/-- File system holding a directory at `webroot//subdir` (the key the
server builds for the request path `/subdir`, with no trailing slash). -/
def fsDirNS : FS := fun s =>
  if s = "webroot//subdir" then some (FsNode.dir ["a.txt"]) else Option.none

/-- File system holding a directory at `webroot//` (the key the server
builds for the request path `/`). -/
def fsDirRoot : FS := fun s =>
  if s = "webroot//" then some (FsNode.dir ["a.txt", "b.png"]) else Option.none

/-- File system holding a node at `webroot//fifo` that exists but is
neither a regular file nor a directory. -/
def fsOther : FS := fun s =>
  if s = "webroot//fifo" then some FsNode.other else Option.none

end HttpServer

open HttpServer

/-- Helper: `make_response` flattened to plain concatenation. -/
theorem make_response_flat (code reason body mimetype : List Nat) :
    make_response code reason body mimetype =
      strBytes "HTTP/1.1 " ++ code ++ strBytes " " ++ reason ++ strBytes "\r\n"
        ++ strBytes "Content-Type: " ++ mimetype ++ strBytes "\r\n"
        ++ strBytes "\r\n" ++ body := by
  simp [make_response, List.intercalate, List.intersperse, strBytes]

/-- C1: `make_response` produces exactly
`'HTTP/1.1 ' + code + ' ' + reason + CRLF + 'Content-Type: ' + mimetype
+ CRLF + CRLF + body`: a single Content-Type header, no Content-Length
header, and no other headers. -/
theorem make_response_exact_bytes (code reason body mimetype : List Nat) :
    make_response code reason body mimetype =
      strBytes "HTTP/1.1 " ++ code ++ strBytes " " ++ reason ++ strBytes "\r\n"
        ++ strBytes "Content-Type: " ++ mimetype ++ strBytes "\r\n"
        ++ strBytes "\r\n" ++ body :=
  make_response_flat code reason body mimetype

/-- Helper: byte encoding distributes over string concatenation. -/
theorem strBytes_append (s t : String) : strBytes (s ++ t) = strBytes s ++ strBytes t := by
  have h : (s ++ t).toList = s.toList ++ t.toList := by
    simp [String.toList, String.data_append]
  simp [strBytes, h]

/-- Helper: byte encoding of a joined string list is the flattened list of
the pieces' bytes. -/
theorem strBytes_foldl_append (l : List String) :
    ∀ init : String, strBytes (l.foldl (fun r c => r ++ c) init) =
      strBytes init ++ (l.map strBytes).flatten := by
  induction l with
  | nil => intro init; simp
  | cons a l ih =>
    intro init
    simp only [List.foldl_cons, ih, strBytes_append, List.map_cons, List.flatten_cons,
      List.append_assoc]

/-- Helper: `String.join` through `strBytes`. -/
theorem strBytes_join (l : List String) :
    strBytes (String.join l) = (l.map strBytes).flatten := by
  have h := strBytes_foldl_append l ""
  simpa [String.join] using h

/-- Helper: bytes of a single formatted directory-listing line. -/
theorem strBytes_fmtEntry (item : String) :
    strBytes (fmtEntry item) =
      strBytes "<a href=" ++ strBytes item ++ strBytes ">" ++ strBytes item
        ++ strBytes "<br></a>" ++ [10] := by
  have h : strBytes "<br></a>\n" = strBytes "<br></a>" ++ [10] := by decide
  simp [fmtEntry, strBytes_append, h]

set_option maxRecDepth 100000 in
/-- C2: a request path whose concatenated filepath does not exist yields the
exact 404 byte sequence
`HTTP/1.1 404 NOT FOUND\r\nContent-Type: text/plain\r\n\r\nCouldn't find the
file you requested.` -/
theorem not_found_response_exact (fs : FS) (request path_ : String)
    (h1 : get_path request = some path_) (h2 : fs (resolve path_) = Option.none) :
    handle fs request = some (strBytes
      "HTTP/1.1 404 NOT FOUND\r\nContent-Type: text/plain\r\n\r\nCouldn't find the file you requested.") := by
  simp only [handle, h1, get_content, h2]
  decide

set_option maxRecDepth 100000 in
/-- Witness for C2: the empty file system and the request `GET /missing.html
HTTP/1.1` produce exactly the fixed 404 response. -/
theorem not_found_response_exact_witness :
    get_path "GET /missing.html HTTP/1.1\r\n\r\n" = some "/missing.html" ∧
    fsEmpty (resolve "/missing.html") = Option.none ∧
    handle fsEmpty "GET /missing.html HTTP/1.1\r\n\r\n" = some (strBytes
      "HTTP/1.1 404 NOT FOUND\r\nContent-Type: text/plain\r\n\r\nCouldn't find the file you requested.") :=
  ⟨rfl, rfl, not_found_response_exact fsEmpty "GET /missing.html HTTP/1.1\r\n\r\n" "/missing.html" rfl rfl⟩

/-- C3: `get_mimetype` returns `text/html` for a path ending in `/`, the
extension-lookup result otherwise, and the literal bytes `None` when the
lookup recognizes no extension; as a total Lean function of the path string
it never raises and is independent of any file's existence. -/
theorem get_mimetype_rule (path_ : String) :
    (endswith_slash path_ = true → get_mimetype path_ = strBytes "text/html") ∧
    (endswith_slash path_ = false → guess_type path_ = Option.none →
      get_mimetype path_ = strBytes "None") ∧
    (∀ t, endswith_slash path_ = false → guess_type path_ = some t →
      get_mimetype path_ = strBytes t) := by
  refine ⟨fun h => ?_, fun h h2 => ?_, fun t h h2 => ?_⟩
  · simp [get_mimetype, h]
  · simp [get_mimetype, pyFormatOpt, h, h2]
  · simp [get_mimetype, pyFormatOpt, h, h2]

/-- Witness for C3, matching the spec's concrete examples: the root path
maps to `text/html`, a `.png` path to `image/png`, and an extensionless path
to the literal placeholder `None`. -/
theorem get_mimetype_rule_witness :
    get_mimetype "/" = strBytes "text/html" ∧
    get_mimetype "/img.png" = strBytes "image/png" ∧
    get_mimetype "/no_extension" = strBytes "None" :=
  ⟨(get_mimetype_rule "/").1 rfl,
   (get_mimetype_rule "/img.png").2.2 "image/png" rfl rfl,
   (get_mimetype_rule "/no_extension").2.1 rfl rfl⟩

/-- C4: a request whose path resolves to an existing regular file gets a
`200 OK` response whose body is exactly the file's bytes and whose content
type is the extension-inference result for the request path. -/
theorem file_response_exact (fs : FS) (request path_ : String) (contents : List Nat)
    (h1 : get_path request = some path_)
    (h2 : fs (resolve path_) = some (FsNode.file contents)) :
    handle fs request = some (strBytes "HTTP/1.1 200 OK\r\nContent-Type: "
      ++ get_mimetype path_ ++ strBytes "\r\n\r\n" ++ contents) := by
  have hpre : (strBytes "HTTP/1.1 200 OK\r\nContent-Type: " : List Nat) =
      strBytes "HTTP/1.1 " ++ strBytes "200" ++ strBytes " " ++ strBytes "OK"
        ++ strBytes "\r\n" ++ strBytes "Content-Type: " := by decide
  have hcrlf2 : (strBytes "\r\n\r\n" : List Nat) = strBytes "\r\n" ++ strBytes "\r\n" := by
    decide
  simp only [handle, h1, get_content, h2, make_response_flat]
  rw [hpre, hcrlf2]
  simp [List.append_assoc]

/-- Witness for C4: a file system with one file `hi` at `webroot//hello.txt`
and the request `GET /hello.txt HTTP/1.1`. -/
theorem file_response_exact_witness :
    handle fsHello "GET /hello.txt HTTP/1.1\r\n\r\n" =
      some (strBytes "HTTP/1.1 200 OK\r\nContent-Type: "
        ++ get_mimetype "/hello.txt" ++ strBytes "\r\n\r\n" ++ strBytes "hi") :=
  file_response_exact fsHello "GET /hello.txt HTTP/1.1\r\n\r\n" "/hello.txt"
    (strBytes "hi") rfl rfl

/-- C5: a request path resolving to an existing directory yields one
newline-terminated listing line `<a href=NAME>NAME<br></a>` per entry, the
entry name used both as link target and link text, in enumeration order. -/
theorem directory_listing_structure (fs : FS) (path_ : String) (entries : List String)
    (h : fs (resolve path_) = some (FsNode.dir entries)) :
    get_content fs path_ = PyResult.bytes
      ((entries.map (fun item =>
        strBytes "<a href=" ++ strBytes item ++ strBytes ">" ++ strBytes item
          ++ strBytes "<br></a>" ++ [10])).flatten) := by
  simp only [get_content, h]
  rw [strBytes_join]
  simp [List.map_map, Function.comp_def, strBytes_fmtEntry, List.append_assoc]

/-- Witness for C5: a two-entry directory at the document root. -/
theorem directory_listing_structure_witness :
    get_content fsDirRoot "/" = PyResult.bytes
      ((["a.txt", "b.png"].map (fun item =>
        strBytes "<a href=" ++ strBytes item ++ strBytes ">" ++ strBytes item
          ++ strBytes "<br></a>" ++ [10])).flatten) :=
  directory_listing_structure fsDirRoot "/" ["a.txt", "b.png"] rfl

set_option maxRecDepth 100000 in
/-- Counterexample to C6: a directory requested via the slashless path
`/subdir` gets a 200 response whose content type is the literal bytes
`None`, not `text/html`. -/
theorem dir_no_slash_mimetype_none :
    fsDirNS (resolve "/subdir") = some (FsNode.dir ["a.txt"]) ∧
    handle fsDirNS "GET /subdir HTTP/1.1\r\n\r\n" = some (strBytes
      "HTTP/1.1 200 OK\r\nContent-Type: None\r\n\r\n<a href=a.txt>a.txt<br></a>\n") ∧
    strBytes "None" ≠ strBytes "text/html" := by
  refine ⟨rfl, by decide, by decide⟩

/-- C6 (amended): a request whose path resolves to an existing directory
gets a `200 OK` response whose body is the generated listing; its content
type is the extension-inference result for the path, which is `text/html`
when the path ends with `/` (but not in general otherwise). -/
theorem dir_response_status_and_mimetype (fs : FS) (request path_ : String)
    (entries : List String) (h1 : get_path request = some path_)
    (h2 : fs (resolve path_) = some (FsNode.dir entries)) :
    handle fs request = some (strBytes "HTTP/1.1 200 OK\r\nContent-Type: "
      ++ get_mimetype path_ ++ strBytes "\r\n\r\n"
      ++ strBytes (String.join (entries.map fmtEntry))) ∧
    (endswith_slash path_ = true → get_mimetype path_ = strBytes "text/html") := by
  have hpre : (strBytes "HTTP/1.1 200 OK\r\nContent-Type: " : List Nat) =
      strBytes "HTTP/1.1 " ++ strBytes "200" ++ strBytes " " ++ strBytes "OK"
        ++ strBytes "\r\n" ++ strBytes "Content-Type: " := by decide
  have hcrlf2 : (strBytes "\r\n\r\n" : List Nat) = strBytes "\r\n" ++ strBytes "\r\n" := by
    decide
  constructor
  · simp only [handle, h1, get_content, h2, make_response_flat]
    rw [hpre, hcrlf2]
    simp [List.append_assoc]
  · intro h
    simp [get_mimetype, h]

/-- Witness for C6 (amended): the root directory requested as `/`. -/
theorem dir_response_status_and_mimetype_witness :
    (handle fsDirRoot "GET / HTTP/1.1\r\n\r\n" =
      some (strBytes "HTTP/1.1 200 OK\r\nContent-Type: "
        ++ get_mimetype "/" ++ strBytes "\r\n\r\n"
        ++ strBytes (String.join (["a.txt", "b.png"].map fmtEntry)))) ∧
    (endswith_slash "/" = true → get_mimetype "/" = strBytes "text/html") :=
  dir_response_status_and_mimetype fsDirRoot "GET / HTTP/1.1\r\n\r\n" "/"
    ["a.txt", "b.png"] rfl rfl

/-- C9: `get_content` consults the file system exactly at the plain string
concatenation `webroot/ + path`, with no canonicalization or containment
check; and the path `/../secret` concatenates to a location that normalizes
to `secret`, outside the document root. -/
theorem resolve_is_plain_concat (fs fs2 : FS) (path_ : String)
    (h : fs (resolve path_) = fs2 (resolve path_)) :
    resolve path_ = "webroot/" ++ path_ ∧
    get_content fs path_ = get_content fs2 path_ ∧
    normComponents (resolve "/../secret") = ["secret"] ∧
    escapesRoot (resolve "/../secret") = true := by
  refine ⟨rfl, ?_, rfl, rfl⟩
  simp only [get_content, h]

/-- Witness for C9: two identical file systems trivially agree at the
resolved location. -/
theorem resolve_is_plain_concat_witness :
    resolve "/x" = "webroot/" ++ "/x" ∧
    get_content fsEmpty "/x" = get_content fsEmpty "/x" ∧
    normComponents (resolve "/../secret") = ["secret"] ∧
    escapesRoot (resolve "/../secret") = true :=
  resolve_is_plain_concat fsEmpty fsEmpty "/x" rfl

/-- C10: an existing node that is neither a directory nor a regular file
makes `get_content` return Python `None` — neither a byte string nor
`FileNotFoundError`. -/
theorem other_node_yields_python_none (fs : FS) (path_ : String)
    (h : fs (resolve path_) = some FsNode.other) :
    get_content fs path_ = PyResult.pyNone ∧
    (∀ b, get_content fs path_ ≠ PyResult.bytes b) ∧
    get_content fs path_ ≠ PyResult.fnf := by
  simp [get_content, h]

/-- Witness for C10: a FIFO-like node at `webroot//fifo`. -/
theorem other_node_yields_python_none_witness :
    get_content fsOther "/fifo" = PyResult.pyNone ∧
    (∀ b, get_content fsOther "/fifo" ≠ PyResult.bytes b) ∧
    get_content fsOther "/fifo" ≠ PyResult.fnf :=
  other_node_yields_python_none fsOther "/fifo" rfl

/-- Helper: inserting one whitespace character splits the Python token scan
into the tokens on each side. -/
theorem pyTokensAux_ws_append (c : Char) (hc : pyIsSpace c = true) (l₂ : List Char) :
    ∀ (l₁ : List Char) (acc : Option (List Char)),
      pyTokensAux acc (l₁ ++ c :: l₂) =
        pyTokensAux acc l₁ ++ pyTokensAux Option.none l₂ := by
  intro l₁
  induction l₁ with
  | nil =>
    intro acc
    cases acc with
    | none => simp [pyTokensAux, hc]
    | some t => simp [pyTokensAux, hc]
  | cons a l ih =>
    intro acc
    cases acc with
    | none =>
      by_cases ha : pyIsSpace a
      · simp [pyTokensAux, ha, ih]
      · simp [pyTokensAux, ha, ih]
    | some t =>
      by_cases ha : pyIsSpace a
      · simp [pyTokensAux, ha, ih]
      · simp [pyTokensAux, ha, ih]

/-- Helper: a line-break character is Python whitespace. -/
theorem isLineBreak_pyIsSpace (c : Char) (h : isLineBreak c = true) :
    pyIsSpace c = true := by
  simp only [isLineBreak, Bool.or_eq_true, beq_iff_eq] at h
  rcases h with h | h <;> subst h <;> rfl

/-- Helper: the head of a non-trivial `dropWhile` residue fails the
predicate. -/
theorem dropWhile_cons_pred_false {α} (p : α → Bool) (l : List α) (c : α)
    (rest : List α) (h : l.dropWhile p = c :: rest) : p c = false := by
  induction l with
  | nil => simp at h
  | cons a l ih =>
    rw [List.dropWhile_cons] at h
    by_cases hp : p a
    · rw [if_pos hp] at h
      exact ih h
    · rw [if_neg hp] at h
      cases h
      simpa using hp

/-- Helper: the token list of a character list splits at the first line
break into the first line's tokens followed by the remainder's tokens. -/
theorem pyTokens_line_split (l : List Char) :
    pyTokens l = pyTokens (l.takeWhile (fun c => !(isLineBreak c))) ++
      pyTokens (l.dropWhile (fun c => !(isLineBreak c))).tail := by
  have hsplit := List.takeWhile_append_dropWhile (fun c => !(isLineBreak c)) l
  cases hdw : l.dropWhile (fun c => !(isLineBreak c)) with
  | nil =>
    rw [hdw, List.append_nil] at hsplit
    simp [pyTokens, pyTokensAux, hsplit]
  | cons c rest =>
    have hc : isLineBreak c = true := by
      have h2 := dropWhile_cons_pred_false _ _ _ _ hdw
      simpa using h2
    have hcs : pyIsSpace c = true := isLineBreak_pyIsSpace c hc
    rw [hdw] at hsplit
    rw [List.tail_cons]
    conv_lhs => rw [← hsplit]
    simp only [pyTokens]
    exact pyTokensAux_ws_append c hcs rest _ Option.none

/-- Counterexample to C7: the request text `GET\n/x HTTP/1.1` has only one
token on its first line, yet `get_path` does not fail — it returns `/x`, a
token taken from the second line, because Python's `split()` runs over the
whole request text. -/
theorem get_path_skips_short_first_line :
    (pyTokens (firstLineOf "GET\n/x HTTP/1.1")).length = 1 ∧
    get_path "GET\n/x HTTP/1.1" = some "/x" :=
  ⟨rfl, rfl⟩

/-- C7 (amended): `get_path` returns the second whitespace-delimited token
of the whole request text; when the first line has at least two tokens this
is the second token of the first line, and `get_path` fails (the `IndexError`
case) exactly when the whole text has fewer than two tokens — a short first
line alone does not make it fail. -/
theorem get_path_token_structure (request : String) :
    (2 ≤ (pyTokens (firstLineOf request)).length →
      get_path request =
        ((pyTokens (firstLineOf request)).map fun t => String.mk t)[1]?) ∧
    (get_path request = Option.none ↔ (pyTokens request.toList).length < 2) := by
  have hfl : firstLineOf request =
      request.toList.takeWhile (fun c => !(isLineBreak c)) := rfl
  have hsplit := pyTokens_line_split request.toList
  rw [← hfl] at hsplit
  constructor
  · intro hlen
    simp only [get_path]
    rw [hsplit, List.map_append]
    exact List.getElem?_append_left (by simpa using hlen)
  · simp only [get_path, List.getElem?_eq_none_iff, List.length_map]
    omega

/-- Witness for C7 (amended): a well-formed request line. -/
theorem get_path_token_structure_witness :
    get_path "GET /a HTTP/1.1\r\n\r\n" =
      ((pyTokens (firstLineOf "GET /a HTTP/1.1\r\n\r\n")).map fun t => String.mk t)[1]? :=
  (get_path_token_structure "GET /a HTTP/1.1\r\n\r\n").1 (by decide)

/-- Helper: `splitCRLF` steps over a non-CR byte. -/
theorem splitCRLF_cons_ne (c : Nat) (h : ¬ c = 13) (l : List Nat) :
    splitCRLF (c :: l) = (splitCRLF l).map fun p => (c :: p.1, p.2) := by
  simp [splitCRLF, h]

/-- Helper: `splitCRLF` steps over a CR-free block. -/
theorem splitCRLF_skip (l : List Nat) (h : (13 : Nat) ∉ l) (r : List Nat) :
    splitCRLF (l ++ r) = (splitCRLF r).map fun p => (l ++ p.1, p.2) := by
  induction l with
  | nil =>
    simp
  | cons a l ih =>
    have ha : ¬ a = 13 := fun ha => h (ha ▸ List.mem_cons_self a l)
    have hl : (13 : Nat) ∉ l := fun hm => h (List.mem_cons_of_mem a hm)
    rw [List.cons_append, splitCRLF_cons_ne a ha, ih hl]
    cases splitCRLF r <;> simp

/-- Helper: `splitCRLF` fires on a leading CR-LF. -/
theorem splitCRLF_at (r : List Nat) : splitCRLF (13 :: 10 :: r) = some ([], r) := by
  simp [splitCRLF]

/-- Helper: `splitCRLF` on a status line built from CR-free code and reason. -/
theorem splitCRLF_statusline (code reason R : List Nat)
    (hc : (13 : Nat) ∉ code) (hr : (13 : Nat) ∉ reason) :
    splitCRLF (strBytes "HTTP/1.1 " ++ (code ++ 32 :: (reason ++ 13 :: 10 :: R))) =
      some (strBytes "HTTP/1.1 " ++ (code ++ 32 :: reason), R) := by
  have hver : (13 : Nat) ∉ strBytes "HTTP/1.1 " := by decide
  rw [splitCRLF_skip _ hver, splitCRLF_skip code hc,
    splitCRLF_cons_ne 32 (by decide), splitCRLF_skip reason hr, splitCRLF_at]
  simp

/-- Helper: `splitCRLF` on the header line built from a CR-free mimetype. -/
theorem splitCRLF_headerline (m R : List Nat) (hm : (13 : Nat) ∉ m) :
    splitCRLF (strBytes "Content-Type: " ++ (m ++ 13 :: 10 :: R)) =
      some (strBytes "Content-Type: " ++ m, R) := by
  have hct : (13 : Nat) ∉ strBytes "Content-Type: " := by decide
  rw [splitCRLF_skip _ hct, splitCRLF_skip m hm, splitCRLF_at]
  simp

/-- Helper: `splitByte` steps over a separator-free block and splits at the
first separator. -/
theorem splitByte_mid (sep : Nat) (l r : List Nat) (h : sep ∉ l) :
    splitByte sep (l ++ sep :: r) = some (l, r) := by
  induction l with
  | nil => simp [splitByte]
  | cons a l ih =>
    have ha : ¬ a = sep := fun hc => h (hc ▸ List.mem_cons_self a l)
    have hl : sep ∉ l := fun hm => h (List.mem_cons_of_mem a hm)
    rw [List.cons_append]
    simp [splitByte, ha, ih hl]

/-- Helper: `stripLead` removes exactly the expected leading block. -/
theorem stripLead_self (p : List Nat) : ∀ r : List Nat, stripLead p (p ++ r) = some r := by
  induction p with
  | nil => intro r; rfl
  | cons a p ih => intro r; simp [stripLead, ih]

set_option maxRecDepth 100000 in
/-- Counterexample to C8: with a status code containing a space (`2 00`),
re-parsing the built response does not give back the original code, reason,
type, and body — the status-line split at spaces cuts the code short. -/
theorem make_response_roundtrip_fails_on_space_in_code :
    parse_response (make_response (strBytes "2 00") (strBytes "OK")
        (strBytes "hi") (strBytes "text/plain")) ≠
      some (strBytes "2 00", strBytes "OK", strBytes "text/plain", strBytes "hi") := by
  decide

/-- C8 (amended): building a response and re-parsing it (status line split
at the first space after the version token, header split at `: `, body after
the first blank line) returns exactly the original status, reason, type, and
body, provided the code contains no space byte and none of the code, reason,
or content-type contain a CR byte. -/
theorem make_response_parse_roundtrip (code reason body mimetype : List Nat)
    (hc32 : (32 : Nat) ∉ code) (hc13 : (13 : Nat) ∉ code)
    (hr13 : (13 : Nat) ∉ reason) (hm13 : (13 : Nat) ∉ mimetype) :
    parse_response (make_response code reason body mimetype) =
      some (code, reason, mimetype, body) := by
  have hsp : (strBytes " " : List Nat) = [32] := by decide
  have hcr : (strBytes "\r\n" : List Nat) = [13, 10] := by decide
  rw [make_response_flat]
  simp only [hsp, hcr, List.cons_append, List.nil_append, List.append_assoc]
  simp only [parse_response, splitCRLF_statusline code reason _ hc13 hr13,
    splitCRLF_headerline mimetype _ hm13, splitCRLF_at,
    stripLead_self, splitByte_mid 32 code reason hc32]

/-- Witness for C8 (amended): the server's own `404`/`NOT FOUND` tokens
(space in the reason, none in the code) round-trip exactly. -/
theorem make_response_parse_roundtrip_witness :
    parse_response (make_response (strBytes "404") (strBytes "NOT FOUND")
        (strBytes "hi") (strBytes "text/html")) =
      some (strBytes "404", strBytes "NOT FOUND", strBytes "text/html", strBytes "hi") :=
  make_response_parse_roundtrip (strBytes "404") (strBytes "NOT FOUND")
    (strBytes "hi") (strBytes "text/html")
    (by decide) (by decide) (by decide) (by decide)
